import Mathlib

/-!
Verification of the TLS 1.3 handshake state machine
(Handshake_State_13 / Handshake_State_13_Base) and the Kyber symmetric
primitive providers (Kyber_Modern_Symmetric_Primitives,
Kyber_90s_Symmetric_Primitives) of this Botan fork.

The embedding follows the C++ sources: message slots become a structure of
Option fields, exceptions become an Except error channel, and the mutable
XOF/PRF objects become explicit state threading. Hash and stream-cipher
internals (SHAKE, AES-CTR keystreams) are opaque black boxes per the spec
and are abstracted as arbitrary deterministic functions.
-/

namespace TLS13

/-- Connection_Side from tls_magic.h: the role of this peer. -/
inductive Connection_Side
  | Client
  | Server
deriving DecidableEq, Repr

/-- AlertType: only the alert used by this subsystem is needed. -/
inductive AlertType
  | UnexpectedMessage
deriving DecidableEq, Repr

/-- The error channel: Invalid_State is the contract-violation kind
(thrown by Handshake_State_13_Base::get), TLS_Exception the protocol-error
kind carrying an alert (thrown by Handshake_State_13::received). -/
inductive BotanError
  | invalid_state (msg : String)
  | tls_exception (alert : AlertType) (msg : String)
deriving DecidableEq, Repr

/-- The concrete handshake-phase message types of Handshake_Message_13,
one tag per store() overload declared in Handshake_State_13_Base. -/
inductive HandshakeType
  | ClientHello13
  | ClientHello12
  | ServerHello13
  | ServerHello12
  | HelloRetryRequest
  | EncryptedExtensions
  | CertificateRequest13
  | Certificate13
  | CertificateVerify13
  | Finished13
deriving DecidableEq, Repr

/-- The wire-level Handshake_Message_13 variant: a tagged message whose
body is abstracted to a Nat payload (message contents are opaque here). -/
structure Handshake_Message_13 where
  tag : HandshakeType
  payload : Nat
deriving DecidableEq, Repr

/-- The post-handshake message types (Post_Handshake_Message_13 variant). -/
inductive PostHandshakeType
  | NewSessionTicket13
  | KeyUpdate
deriving DecidableEq, Repr

/-- Post_Handshake_Message_13: tagged post-handshake message. -/
structure Post_Handshake_Message_13 where
  tag : PostHandshakeType
  payload : Nat
deriving DecidableEq, Repr

/-- Handshake_State_13_Base: one Botan::optional slot per message type,
exactly the thirteen private fields of the C++ class, plus m_side. -/
structure Handshake_State_13_Base where
  m_side : Connection_Side
  m_client_hello : Option Nat
  m_client_hello_12 : Option Nat
  m_server_hello : Option Nat
  m_server_hello_12 : Option Nat
  m_hello_retry_request : Option Nat
  m_encrypted_extensions : Option Nat
  m_certificate_request : Option Nat
  m_server_certificate : Option Nat
  m_client_certificate : Option Nat
  m_server_certificate_verify : Option Nat
  m_client_certificate_verify : Option Nat
  m_server_finished : Option Nat
  m_client_finished : Option Nat
deriving DecidableEq, Repr

/-- The constructor Handshake_State_13_Base(whoami): all slots empty. -/
def Handshake_State_13_Base.init (whoami : Connection_Side) : Handshake_State_13_Base :=
  ⟨whoami, none, none, none, none, none, none, none, none, none, none, none, none, none⟩

namespace Handshake_State_13_Base

def has_client_hello (s : Handshake_State_13_Base) : Bool := s.m_client_hello.isSome

def has_server_hello (s : Handshake_State_13_Base) : Bool := s.m_server_hello.isSome

def has_server_certificate_chain (s : Handshake_State_13_Base) : Bool :=
  s.m_server_certificate.isSome

def has_client_certificate_chain (s : Handshake_State_13_Base) : Bool :=
  s.m_client_certificate.isSome

def has_hello_retry_request (s : Handshake_State_13_Base) : Bool :=
  s.m_hello_retry_request.isSome

def has_certificate_request (s : Handshake_State_13_Base) : Bool :=
  s.m_certificate_request.isSome

def has_server_finished (s : Handshake_State_13_Base) : Bool := s.m_server_finished.isSome

def has_client_finished (s : Handshake_State_13_Base) : Bool := s.m_client_finished.isSome

def handshake_finished (s : Handshake_State_13_Base) : Bool :=
  s.has_server_finished && s.has_client_finished

/-- The private get template: throws Invalid_State on an empty slot,
returns the contained value otherwise. -/
def get (opt : Option Nat) : Except BotanError Nat :=
  match opt with
  | none => Except.error (BotanError.invalid_state "TLS handshake message not set")
  | some v => Except.ok v

def client_hello (s : Handshake_State_13_Base) : Except BotanError Nat := get s.m_client_hello

def server_hello (s : Handshake_State_13_Base) : Except BotanError Nat := get s.m_server_hello

def hello_retry_request (s : Handshake_State_13_Base) : Except BotanError Nat :=
  get s.m_hello_retry_request

def encrypted_extensions (s : Handshake_State_13_Base) : Except BotanError Nat :=
  get s.m_encrypted_extensions

def certificate_request (s : Handshake_State_13_Base) : Except BotanError Nat :=
  get s.m_certificate_request

def server_certificate (s : Handshake_State_13_Base) : Except BotanError Nat :=
  get s.m_server_certificate

def client_certificate (s : Handshake_State_13_Base) : Except BotanError Nat :=
  get s.m_client_certificate

def server_certificate_verify (s : Handshake_State_13_Base) : Except BotanError Nat :=
  get s.m_server_certificate_verify

def client_certificate_verify (s : Handshake_State_13_Base) : Except BotanError Nat :=
  get s.m_client_certificate_verify

def server_finished (s : Handshake_State_13_Base) : Except BotanError Nat :=
  get s.m_server_finished

def client_finished (s : Handshake_State_13_Base) : Except BotanError Nat :=
  get s.m_client_finished

end Handshake_State_13_Base

/-- The thirteen physical message slots of Handshake_State_13_Base. -/
inductive Field
  | client_hello
  | client_hello_12
  | server_hello
  | server_hello_12
  | hello_retry_request
  | encrypted_extensions
  | certificate_request
  | server_certificate
  | client_certificate
  | server_certificate_verify
  | client_certificate_verify
  | server_finished
  | client_finished
deriving DecidableEq, Repr, Fintype

/-- Read one physical slot of the store. -/
def read_field (f : Field) (s : Handshake_State_13_Base) : Option Nat :=
  match f with
  | .client_hello => s.m_client_hello
  | .client_hello_12 => s.m_client_hello_12
  | .server_hello => s.m_server_hello
  | .server_hello_12 => s.m_server_hello_12
  | .hello_retry_request => s.m_hello_retry_request
  | .encrypted_extensions => s.m_encrypted_extensions
  | .certificate_request => s.m_certificate_request
  | .server_certificate => s.m_server_certificate
  | .client_certificate => s.m_client_certificate
  | .server_certificate_verify => s.m_server_certificate_verify
  | .client_certificate_verify => s.m_client_certificate_verify
  | .server_finished => s.m_server_finished
  | .client_finished => s.m_client_finished

/-- Overwrite one physical slot of the store. -/
def write_field (f : Field) (v : Nat) (s : Handshake_State_13_Base) : Handshake_State_13_Base :=
  match f with
  | .client_hello => { s with m_client_hello := some v }
  | .client_hello_12 => { s with m_client_hello_12 := some v }
  | .server_hello => { s with m_server_hello := some v }
  | .server_hello_12 => { s with m_server_hello_12 := some v }
  | .hello_retry_request => { s with m_hello_retry_request := some v }
  | .encrypted_extensions => { s with m_encrypted_extensions := some v }
  | .certificate_request => { s with m_certificate_request := some v }
  | .server_certificate => { s with m_server_certificate := some v }
  | .client_certificate => { s with m_client_certificate := some v }
  | .server_certificate_verify => { s with m_server_certificate_verify := some v }
  | .client_certificate_verify => { s with m_client_certificate_verify := some v }
  | .server_finished => { s with m_server_finished := some v }
  | .client_finished => { s with m_client_finished := some v }

/-- Modelled from the spec: whether a message stored with the given
from_peer flag was produced by the server side of the connection. The
Certificate_13, Certificate_Verify_13 and Finished_13 store() overloads
(implementation not under src/) use this to pick the server_ or client_
slot: the store is "partitioned by from_peer (received) vs. local (sent)"
with the side fixed per connection. -/
def from_server (side : Connection_Side) (from_peer : Bool) : Bool :=
  match side with
  | .Client => from_peer
  | .Server => !from_peer

/-- Modelled from the spec: the unique slot addressed by a message type
and direction, as used by the store() overloads of
Handshake_State_13_Base (declared in the header, implementation not under
src/): each type has one slot, except that Certificate_13,
Certificate_Verify_13 and Finished_13 have a server- and a client-sourced
slot selected by the direction. -/
def target_field (t : HandshakeType) (side : Connection_Side) (from_peer : Bool) : Field :=
  match t with
  | .ClientHello13 => .client_hello
  | .ClientHello12 => .client_hello_12
  | .ServerHello13 => .server_hello
  | .ServerHello12 => .server_hello_12
  | .HelloRetryRequest => .hello_retry_request
  | .EncryptedExtensions => .encrypted_extensions
  | .CertificateRequest13 => .certificate_request
  | .Certificate13 =>
      if from_server side from_peer then .server_certificate else .client_certificate
  | .CertificateVerify13 =>
      if from_server side from_peer then .server_certificate_verify
      else .client_certificate_verify
  | .Finished13 =>
      if from_server side from_peer then .server_finished else .client_finished

/-- Modelled from the spec: the store() overload family of
Handshake_State_13_Base (implementation not under src/): "inserts or
overwrites the unique slot for the message type; returns a mutable
reference to the stored copy"; it never fails. The returned reference is
modelled as the stored value. -/
def store_msg (t : HandshakeType) (v : Nat) (from_peer : Bool) (s : Handshake_State_13_Base) :
    Handshake_State_13_Base × Nat :=
  (write_field (target_field t s.m_side from_peer) v s, v)

/-- Modelled from the spec: the membership predicate of the
Client_Handshake_13_Message variant (tls_messages.h is not under src/):
the subset of handshake messages a TLS 1.3 client may legally send, which
is also what a server may receive. -/
def Client_Handshake_13_Message : HandshakeType → Bool
  | .ClientHello13 => true
  | .ClientHello12 => true
  | .Certificate13 => true
  | .CertificateVerify13 => true
  | .Finished13 => true
  | _ => false

/-- Modelled from the spec: the membership predicate of the
Server_Handshake_13_Message variant (tls_messages.h is not under src/):
the subset of handshake messages a TLS 1.3 server may legally send, which
is also what a client may receive. -/
def Server_Handshake_13_Message : HandshakeType → Bool
  | .ServerHello13 => true
  | .ServerHello12 => true
  | .HelloRetryRequest => true
  | .EncryptedExtensions => true
  | .CertificateRequest13 => true
  | .Certificate13 => true
  | .CertificateVerify13 => true
  | .Finished13 => true
  | _ => false

/-- Modelled from the spec: the membership predicate of the
Client_Post_Handshake_13_Message variant (tls_messages.h is not under
src/): post-handshake messages a client may send (KeyUpdate only). -/
def Client_Post_Handshake_13_Message : PostHandshakeType → Bool
  | .KeyUpdate => true
  | _ => false

/-- Modelled from the spec: the membership predicate of the
Server_Post_Handshake_13_Message variant (tls_messages.h is not under
src/): post-handshake messages a server may send (NewSessionTicket and
KeyUpdate). -/
def Server_Post_Handshake_13_Message : PostHandshakeType → Bool
  | .NewSessionTicket13 => true
  | .KeyUpdate => true

/-- The template parameters of one Handshake_State_13 instantiation:
the role tag and the three variant membership predicates. -/
structure Role_Instance where
  whoami : Connection_Side
  Outbound_Message_T : HandshakeType → Bool
  Inbound_Message_T : HandshakeType → Bool
  Inbound_Post_Handshake_Message_T : PostHandshakeType → Bool

/-- Client_Handshake_State_13 = Handshake_State_13 with Client role,
Client_Handshake_13_Message outbound, Server_Handshake_13_Message inbound,
Server_Post_Handshake_13_Message post-handshake inbound. -/
def Client_Handshake_State_13 : Role_Instance :=
  ⟨.Client, Client_Handshake_13_Message, Server_Handshake_13_Message,
    Server_Post_Handshake_13_Message⟩

/-- Server_Handshake_State_13 = Handshake_State_13 with Server role,
Server_Handshake_13_Message outbound, Client_Handshake_13_Message inbound,
Client_Post_Handshake_13_Message post-handshake inbound. -/
def Server_Handshake_State_13 : Role_Instance :=
  ⟨.Server, Server_Handshake_13_Message, Client_Handshake_13_Message,
    Client_Post_Handshake_13_Message⟩

/-- Handshake_State_13::sending(MsgT msg): the static_assert that MsgT is
constructible into Outbound_Message_T is a compile-time constraint,
modelled as the hypothesis h; the body stores with from_peer = false and
returns a reference wrapper to the stored message. -/
def sending (r : Role_Instance) (s : Handshake_State_13_Base) (t : HandshakeType) (v : Nat)
    (_h : r.Outbound_Message_T t = true) : Handshake_State_13_Base × Nat :=
  store_msg t v false s

/-- Handshake_State_13::received(Handshake_Message_13 message): visits the
concrete message type; if it is constructible into Inbound_Message_T the
message is stored with from_peer = true and a reference wrapper to the
stored copy is returned, otherwise a TLS_Exception with
AlertType::UnexpectedMessage is thrown (no state is touched). -/
def received (r : Role_Instance) (s : Handshake_State_13_Base) (m : Handshake_Message_13) :
    Handshake_State_13_Base × Except BotanError Nat :=
  if r.Inbound_Message_T m.tag then
    let res := store_msg m.tag m.payload true s
    (res.1, Except.ok res.2)
  else
    (s, Except.error
      (BotanError.tls_exception AlertType.UnexpectedMessage
        "received an illegal handshake message"))

/-- Handshake_State_13::received(Post_Handshake_Message_13 message): if the
concrete type is constructible into Inbound_Post_Handshake_Message_T the
message itself is returned by value (it is never stored), otherwise a
TLS_Exception with AlertType::UnexpectedMessage is thrown. -/
def received_post (r : Role_Instance) (s : Handshake_State_13_Base)
    (m : Post_Handshake_Message_13) :
    Handshake_State_13_Base × Except BotanError Post_Handshake_Message_13 :=
  if r.Inbound_Post_Handshake_Message_T m.tag then
    (s, Except.ok m)
  else
    (s, Except.error
      (BotanError.tls_exception AlertType.UnexpectedMessage
        "received an unexpected post-handshake message"))

end TLS13

namespace Kyber

/-- Modelled from the spec: the state of a Botan::XOF object (SHAKE-128;
implementation not under src/, treated as an opaque black box with clear,
update and output): bytes absorbed since the last clear, and how many
keystream bytes were already squeezed. The keystream itself is an
arbitrary deterministic function of the absorbed bytes, supplied as a
parameter to output. -/
structure XOF_State where
  absorbed : List Nat
  consumed : Nat
deriving DecidableEq, Repr

/-- Botan::XOF::clear resets all internal state. -/
def xof_clear (_s : XOF_State) : XOF_State := ⟨[], 0⟩

/-- Botan::XOF::update absorbs further input bytes. -/
def xof_update (s : XOF_State) (data : List Nat) : XOF_State :=
  ⟨s.absorbed ++ data, s.consumed⟩

/-- Botan::XOF::output squeezes the next n keystream bytes; stream is the
opaque deterministic keystream of the absorbed input (byte index to byte
value). -/
def xof_output (stream : List Nat → Nat → Nat) (s : XOF_State) (n : Nat) :
    XOF_State × List Nat :=
  (⟨s.absorbed, s.consumed + n⟩,
   (List.range n).map (fun i => stream s.absorbed (s.consumed + i)))

/-- Modelled from the spec: the state of an AES_256_CTR_XOF object
(aes_crystals_xof.h is not under src/, an opaque black box with clear,
start and output): the key and IV set by start, and how many keystream
bytes were already produced. -/
structure CTR_XOF_State where
  key : List Nat
  iv : List Nat
  consumed : Nat
deriving DecidableEq, Repr

/-- AES_256_CTR_XOF::clear resets all internal state. -/
def ctr_clear (_s : CTR_XOF_State) : CTR_XOF_State := ⟨[], [], 0⟩

/-- AES_256_CTR_XOF::start keys the cipher and sets the IV, restarting the
keystream. -/
def ctr_start (_s : CTR_XOF_State) (iv key : List Nat) : CTR_XOF_State := ⟨key, iv, 0⟩

/-- AES_256_CTR_XOF::output produces the next n keystream bytes; stream is
the opaque deterministic AES-256-CTR keystream of (key, iv). -/
def ctr_output (stream : List Nat → List Nat → Nat → Nat) (s : CTR_XOF_State) (n : Nat) :
    CTR_XOF_State × List Nat :=
  (⟨s.key, s.iv, s.consumed + n⟩,
   (List.range n).map (fun i => stream s.key s.iv (s.consumed + i)))

/-- Kyber_Modern_Symmetric_Primitives::XOF(seed, matrix_position): clears
the shared m_shake128 member, absorbs the seed, then absorbs the two-byte
matrix position buffer, and returns (a reference to) the repositioned
object. -/
def modern_XOF (st : XOF_State) (seed : List Nat) (mpos : Nat × Nat) : XOF_State :=
  xof_update (xof_update (xof_clear st) seed) [mpos.1, mpos.2]

/-- Kyber_90s_Symmetric_Primitives::XOF(seed, mpos): clears the shared
m_aes256_ctr_xof member, then starts it with the 12-byte IV
(row, col, 0, ..., 0) and the seed as key. -/
def legacy_XOF (st : CTR_XOF_State) (seed : List Nat) (mpos : Nat × Nat) : CTR_XOF_State :=
  ctr_start (ctr_clear st) ([mpos.1, mpos.2] ++ List.replicate 10 0) seed

/-- Modelled from the spec: the state of a StreamCipher (SHAKE_128_Cipher,
not under src/, an opaque black box): the current key and the number of
keystream bytes already written. set_key restarts the keystream. -/
structure Stream_Cipher_State where
  key : List Nat
  consumed : Nat
deriving DecidableEq, Repr

/-- StreamCipher::set_key: keys the cipher, restarting the keystream. -/
def cipher_set_key (_s : Stream_Cipher_State) (key : List Nat) : Stream_Cipher_State :=
  ⟨key, 0⟩

/-- StreamCipher::write_keystream: the next n keystream bytes; stream is
the opaque deterministic keystream of the key. -/
def cipher_write_keystream (stream : List Nat → Nat → Nat) (s : Stream_Cipher_State)
    (n : Nat) : Stream_Cipher_State × List Nat :=
  (⟨s.key, s.consumed + n⟩, (List.range n).map (fun i => stream s.key (s.consumed + i)))

/-- The backported Kyber_Modern_XOF object: a fresh SHAKE_128_Cipher plus
the m_key buffer seed ++ [0, 0] built by the constructor from the seed. -/
structure Kyber_Modern_XOF_Obj where
  m_cipher : Stream_Cipher_State
  m_key : List Nat
deriving DecidableEq, Repr

/-- Backport branch Kyber_Modern_Symmetric_Primitives::XOF(seed): returns
a fresh Kyber_Modern_XOF holding an unkeyed SHAKE_128_Cipher and
m_key = seed with two zero bytes appended. -/
def modern_backport_XOF (seed : List Nat) : Kyber_Modern_XOF_Obj :=
  ⟨⟨[], 0⟩, seed ++ [0, 0]⟩

/-- Kyber_Modern_XOF::set_position: writes the matrix position into the
last two bytes of m_key and keys the cipher with it. -/
def modern_backport_set_position (o : Kyber_Modern_XOF_Obj) (mpos : Nat × Nat) :
    Kyber_Modern_XOF_Obj :=
  let k := (o.m_key.set (o.m_key.length - 2) mpos.1).set (o.m_key.length - 1) mpos.2
  ⟨cipher_set_key o.m_cipher k, k⟩

/-- Backport branch Kyber_90s_Symmetric_Primitives::XOF(seed): returns a
fresh Kyber_90s_XOF holding a fresh AES-256-CTR cipher keyed with the
seed. -/
def legacy_backport_XOF (seed : List Nat) : CTR_XOF_State := ⟨seed, [], 0⟩

/-- Kyber_90s_XOF::set_position: sets the 12-byte IV (row, col, 0, ..., 0)
on the cipher, restarting the keystream. -/
def legacy_backport_set_position (s : CTR_XOF_State) (mpos : Nat × Nat) : CTR_XOF_State :=
  ⟨s.key, [mpos.1, mpos.2] ++ List.replicate 10 0, 0⟩

/-- Kyber_Modern_Symmetric_Primitives::PRF(seed, nonce, outlen):
constructs a fresh SHAKE_256 hash with outlen*8 output bits, updates it
with the seed then the nonce byte, and returns final(); shake256 is the
opaque SHAKE-256 primitive mapping (output bits, input bytes) to the
digest bytes. -/
def modern_PRF (shake256 : Nat → List Nat → List Nat) (seed : List Nat) (nonce : Nat)
    (outlen : Nat) : List Nat :=
  shake256 (outlen * 8) (seed ++ [nonce])

/-- Kyber_90s_Symmetric_Primitives::PRF(seed, nonce, outlen): clears the
shared m_aes256_ctr_prf member, starts it with the 12-byte nonce buffer
(nonce, 0, ..., 0) as IV and the seed as key, and outputs outlen bytes. -/
def legacy_PRF (stream : List Nat → List Nat → Nat → Nat) (st : CTR_XOF_State)
    (seed : List Nat) (nonce : Nat) (outlen : Nat) : CTR_XOF_State × List Nat :=
  ctr_output stream (ctr_start (ctr_clear st) ([nonce] ++ List.replicate 11 0) seed) outlen

end Kyber

open TLS13 Kyber

instance {ε α : Type} [DecidableEq ε] [DecidableEq α] : DecidableEq (Except ε α) := fun a b =>
  match a, b with
  | Except.ok x, Except.ok y =>
      if h : x = y then isTrue (h ▸ rfl) else isFalse (fun hc => h (Except.ok.inj hc))
  | Except.ok _, Except.error _ => isFalse (fun hc => Except.noConfusion hc)
  | Except.error _, Except.ok _ => isFalse (fun hc => Except.noConfusion hc)
  | Except.error e, Except.error e2 =>
      if h : e = e2 then isTrue (h ▸ rfl) else isFalse (fun hc => h (Except.error.inj hc))

theorem read_field_write_field_same (f : Field) (v : Nat) (s : Handshake_State_13_Base) :
    read_field f (write_field f v s) = some v := by
  cases f <;> rfl

theorem read_field_write_field_ne (f f' : Field) (v : Nat) (s : Handshake_State_13_Base)
    (h : f ≠ f') : read_field f (write_field f' v s) = read_field f s := by
  cases f <;> cases f' <;> first | exact absurd rfl h | rfl

theorem write_field_m_side (f : Field) (v : Nat) (s : Handshake_State_13_Base) :
    (write_field f v s).m_side = s.m_side := by
  cases f <;> rfl

/-- C2: for every state of the handshake message store,
handshake_finished() is true if and only if both has_client_finished()
and has_server_finished() are true. -/
theorem C2_handshake_finished_iff (s : Handshake_State_13_Base) :
    s.handshake_finished = true ↔
      (s.has_client_finished = true ∧ s.has_server_finished = true) := by
  simp [Handshake_State_13_Base.handshake_finished, Bool.and_eq_true, and_comm]

/-- C1: for the Client- and Server-instantiated Handshake_State_13, a
handshake-phase message whose concrete type is not a member of the role's
allowed inbound variant makes received(message) fail with a TLS_Exception
carrying AlertType::UnexpectedMessage, and a message whose type is a
member makes received(message) succeed (returning the stored payload). -/
theorem C1_received_type_membership (r : Role_Instance)
    (_hr : r = Client_Handshake_State_13 ∨ r = Server_Handshake_State_13)
    (s : Handshake_State_13_Base) (m : Handshake_Message_13) :
    (r.Inbound_Message_T m.tag = false →
      (received r s m).2 = Except.error
        (BotanError.tls_exception AlertType.UnexpectedMessage
          "received an illegal handshake message"))
    ∧ (r.Inbound_Message_T m.tag = true →
      (received r s m).2 = Except.ok m.payload) := by
  constructor
  · intro h
    simp [received, h]
  · intro h
    simp [received, h, store_msg]

/-- C1 witness: a Server-role state machine fed a CertificateRequest (a
type outside its inbound variant) fails with the unexpected_message
protocol error. -/
theorem C1_witness :
    (received Server_Handshake_State_13
        (Handshake_State_13_Base.init Connection_Side.Server)
        ⟨HandshakeType.CertificateRequest13, 5⟩).2
      = Except.error
          (BotanError.tls_exception AlertType.UnexpectedMessage
            "received an illegal handshake message") :=
  (C1_received_type_membership Server_Handshake_State_13 (Or.inr rfl)
    (Handshake_State_13_Base.init Connection_Side.Server)
    ⟨HandshakeType.CertificateRequest13, 5⟩).1 rfl

/-- C8: received(message) is atomic — whenever it fails with an error,
the message store is returned completely unchanged. -/
theorem C8_received_atomic (r : Role_Instance) (s : Handshake_State_13_Base)
    (m : Handshake_Message_13) (e : BotanError)
    (h : (received r s m).2 = Except.error e) :
    (received r s m).1 = s := by
  by_cases hm : r.Inbound_Message_T m.tag = true
  · simp [received, hm] at h
  · simp [received, hm]

/-- C8 witness: the failing Server-role CertificateRequest receive leaves
the (empty) store unchanged. -/
theorem C8_witness :
    (received Server_Handshake_State_13
        (Handshake_State_13_Base.init Connection_Side.Server)
        ⟨HandshakeType.CertificateRequest13, 7⟩).1
      = Handshake_State_13_Base.init Connection_Side.Server :=
  C8_received_atomic Server_Handshake_State_13
    (Handshake_State_13_Base.init Connection_Side.Server)
    ⟨HandshakeType.CertificateRequest13, 7⟩
    (BotanError.tls_exception AlertType.UnexpectedMessage
      "received an illegal handshake message") rfl

/-- C10: for every role, the post-handshake received overload leaves the
message store untouched (the returned state equals the input state, hence
every slot, every has predicate and handshake_finished() are unchanged)
and, on success, returns the accepted message itself by value. -/
theorem C10_received_post_frame (r : Role_Instance) (s : Handshake_State_13_Base)
    (m : Post_Handshake_Message_13) :
    (received_post r s m).1 = s
    ∧ ((received_post r s m).2 = Except.ok m
        ∨ (received_post r s m).2 = Except.error
            (BotanError.tls_exception AlertType.UnexpectedMessage
              "received an unexpected post-handshake message")) := by
  by_cases h : r.Inbound_Post_Handshake_Message_T m.tag = true <;>
    simp [received_post, h]

/-- C4: every getter of the message store fails on an empty slot with the
Invalid_State contract-violation error (never a TLS_Exception protocol
error, never a default value); the last conjunct records that the two
error kinds are distinct constructors of BotanError. -/
theorem C4_getters_fail_invalid_state (s : Handshake_State_13_Base) :
    (s.m_client_hello = none → s.client_hello =
      Except.error (BotanError.invalid_state "TLS handshake message not set"))
    ∧ (s.m_server_hello = none → s.server_hello =
      Except.error (BotanError.invalid_state "TLS handshake message not set"))
    ∧ (s.m_hello_retry_request = none → s.hello_retry_request =
      Except.error (BotanError.invalid_state "TLS handshake message not set"))
    ∧ (s.m_encrypted_extensions = none → s.encrypted_extensions =
      Except.error (BotanError.invalid_state "TLS handshake message not set"))
    ∧ (s.m_certificate_request = none → s.certificate_request =
      Except.error (BotanError.invalid_state "TLS handshake message not set"))
    ∧ (s.m_server_certificate = none → s.server_certificate =
      Except.error (BotanError.invalid_state "TLS handshake message not set"))
    ∧ (s.m_client_certificate = none → s.client_certificate =
      Except.error (BotanError.invalid_state "TLS handshake message not set"))
    ∧ (s.m_server_certificate_verify = none → s.server_certificate_verify =
      Except.error (BotanError.invalid_state "TLS handshake message not set"))
    ∧ (s.m_client_certificate_verify = none → s.client_certificate_verify =
      Except.error (BotanError.invalid_state "TLS handshake message not set"))
    ∧ (s.m_server_finished = none → s.server_finished =
      Except.error (BotanError.invalid_state "TLS handshake message not set"))
    ∧ (s.m_client_finished = none → s.client_finished =
      Except.error (BotanError.invalid_state "TLS handshake message not set"))
    ∧ (∀ msg al msg2,
      BotanError.invalid_state msg ≠ BotanError.tls_exception al msg2) := by
  refine ⟨?_, ?_, ?_, ?_, ?_, ?_, ?_, ?_, ?_, ?_, ?_, ?_⟩
  case _ => intro h; simp [Handshake_State_13_Base.client_hello,
    Handshake_State_13_Base.get, h]
  case _ => intro h; simp [Handshake_State_13_Base.server_hello,
    Handshake_State_13_Base.get, h]
  case _ => intro h; simp [Handshake_State_13_Base.hello_retry_request,
    Handshake_State_13_Base.get, h]
  case _ => intro h; simp [Handshake_State_13_Base.encrypted_extensions,
    Handshake_State_13_Base.get, h]
  case _ => intro h; simp [Handshake_State_13_Base.certificate_request,
    Handshake_State_13_Base.get, h]
  case _ => intro h; simp [Handshake_State_13_Base.server_certificate,
    Handshake_State_13_Base.get, h]
  case _ => intro h; simp [Handshake_State_13_Base.client_certificate,
    Handshake_State_13_Base.get, h]
  case _ => intro h; simp [Handshake_State_13_Base.server_certificate_verify,
    Handshake_State_13_Base.get, h]
  case _ => intro h; simp [Handshake_State_13_Base.client_certificate_verify,
    Handshake_State_13_Base.get, h]
  case _ => intro h; simp [Handshake_State_13_Base.server_finished,
    Handshake_State_13_Base.get, h]
  case _ => intro h; simp [Handshake_State_13_Base.client_finished,
    Handshake_State_13_Base.get, h]
  case _ => intro msg al msg2 h; exact BotanError.noConfusion h

/-- C4 witness: on the freshly initialized (all-empty) store every getter
fails with the Invalid_State error. -/
theorem C4_witness :
    (Handshake_State_13_Base.init Connection_Side.Client).client_hello =
      Except.error (BotanError.invalid_state "TLS handshake message not set")
    ∧ (Handshake_State_13_Base.init Connection_Side.Client).server_hello =
      Except.error (BotanError.invalid_state "TLS handshake message not set")
    ∧ (Handshake_State_13_Base.init Connection_Side.Client).hello_retry_request =
      Except.error (BotanError.invalid_state "TLS handshake message not set")
    ∧ (Handshake_State_13_Base.init Connection_Side.Client).encrypted_extensions =
      Except.error (BotanError.invalid_state "TLS handshake message not set")
    ∧ (Handshake_State_13_Base.init Connection_Side.Client).certificate_request =
      Except.error (BotanError.invalid_state "TLS handshake message not set")
    ∧ (Handshake_State_13_Base.init Connection_Side.Client).server_certificate =
      Except.error (BotanError.invalid_state "TLS handshake message not set")
    ∧ (Handshake_State_13_Base.init Connection_Side.Client).client_certificate =
      Except.error (BotanError.invalid_state "TLS handshake message not set")
    ∧ (Handshake_State_13_Base.init Connection_Side.Client).server_certificate_verify =
      Except.error (BotanError.invalid_state "TLS handshake message not set")
    ∧ (Handshake_State_13_Base.init Connection_Side.Client).client_certificate_verify =
      Except.error (BotanError.invalid_state "TLS handshake message not set")
    ∧ (Handshake_State_13_Base.init Connection_Side.Client).server_finished =
      Except.error (BotanError.invalid_state "TLS handshake message not set")
    ∧ (Handshake_State_13_Base.init Connection_Side.Client).client_finished =
      Except.error (BotanError.invalid_state "TLS handshake message not set") := by
  have h := C4_getters_fail_invalid_state
    (Handshake_State_13_Base.init Connection_Side.Client)
  exact ⟨h.1 rfl, h.2.1 rfl, h.2.2.1 rfl, h.2.2.2.1 rfl, h.2.2.2.2.1 rfl,
    h.2.2.2.2.2.1 rfl, h.2.2.2.2.2.2.1 rfl, h.2.2.2.2.2.2.2.1 rfl,
    h.2.2.2.2.2.2.2.2.1 rfl, h.2.2.2.2.2.2.2.2.2.1 rfl,
    h.2.2.2.2.2.2.2.2.2.2.1 rfl⟩

/-- C6: storing a second message of the same type and direction into the
store overwrites the first: the addressed slot then holds the second
value, the getter (the get template on that slot) returns it, and the
presence predicate on that slot is true. -/
theorem C6_store_overwrite (s : Handshake_State_13_Base) (t : HandshakeType)
    (d : Bool) (a a' : Nat) :
    read_field (target_field t s.m_side d)
        (store_msg t a' d (store_msg t a d s).1).1 = some a'
    ∧ Handshake_State_13_Base.get
        (read_field (target_field t s.m_side d)
          (store_msg t a' d (store_msg t a d s).1).1) = Except.ok a'
    ∧ (read_field (target_field t s.m_side d)
        (store_msg t a' d (store_msg t a d s).1).1).isSome = true := by
  have h1 : read_field (target_field t s.m_side d)
      (store_msg t a' d (store_msg t a d s).1).1 = some a' := by
    simp only [store_msg]
    rw [write_field_m_side]
    exact read_field_write_field_same _ _ _
  refine ⟨h1, ?_, ?_⟩
  · rw [h1]; rfl
  · rw [h1]; rfl

/-- C9: store touches only the slot addressed by the message type and
direction — that slot afterwards holds the stored value, the stored value
is returned, the side is unchanged, and every other slot reads exactly as
before; store is total (never fails). -/
theorem C9_store_frame (s : Handshake_State_13_Base) (t : HandshakeType)
    (d : Bool) (a : Nat) :
    read_field (target_field t s.m_side d) (store_msg t a d s).1 = some a
    ∧ (store_msg t a d s).2 = a
    ∧ (store_msg t a d s).1.m_side = s.m_side
    ∧ ∀ f : Field, f ≠ target_field t s.m_side d →
        read_field f (store_msg t a d s).1 = read_field f s := by
  refine ⟨?_, rfl, write_field_m_side _ _ _, ?_⟩
  · simp only [store_msg]
    exact read_field_write_field_same _ _ _
  · intro f hf
    simp only [store_msg]
    exact read_field_write_field_ne _ _ _ _ hf

/-- C9 witness: storing a ClientHello into an empty Server-side store
leaves the server_hello slot untouched. -/
theorem C9_witness :
    read_field Field.server_hello
        (store_msg HandshakeType.ClientHello13 4 true
          (Handshake_State_13_Base.init Connection_Side.Server)).1
      = read_field Field.server_hello
          (Handshake_State_13_Base.init Connection_Side.Server) :=
  (C9_store_frame (Handshake_State_13_Base.init Connection_Side.Server)
    HandshakeType.ClientHello13 true 4).2.2.2 Field.server_hello (by decide)

/-- C5 counterexample: the claim fails on the post-handshake received
overload. A Server-role state machine successfully receiving a KeyUpdate
returns the message by value, but no slot of the resulting message store
holds it — the message was never stored, so no getter can return it. -/
theorem C5_counterexample :
    (received_post Server_Handshake_State_13
        (Handshake_State_13_Base.init Connection_Side.Server)
        ⟨PostHandshakeType.KeyUpdate, 7⟩).2
      = Except.ok ⟨PostHandshakeType.KeyUpdate, 7⟩
    ∧ ¬ ∃ f : Field,
        read_field f
          (received_post Server_Handshake_State_13
            (Handshake_State_13_Base.init Connection_Side.Server)
            ⟨PostHandshakeType.KeyUpdate, 7⟩).1
        = some 7 := by
  decide

/-- C5 (amended): every successful handshake-phase received and every
sending returns the message instance that was stored, so the getter on
the addressed slot returns the same value; the post-handshake received
overload instead returns the accepted message by value and stores
nothing (the state is unchanged). -/
theorem C5_returns_stored_message :
    (∀ (r : Role_Instance) (s : Handshake_State_13_Base)
        (m : Handshake_Message_13) (v : Nat),
      (received r s m).2 = Except.ok v →
        Handshake_State_13_Base.get
          (read_field (target_field m.tag s.m_side true) (received r s m).1)
          = Except.ok v)
    ∧ (∀ (r : Role_Instance) (s : Handshake_State_13_Base) (t : HandshakeType)
        (v : Nat) (h : r.Outbound_Message_T t = true),
      Handshake_State_13_Base.get
        (read_field (target_field t s.m_side false) (sending r s t v h).1)
        = Except.ok (sending r s t v h).2)
    ∧ (∀ (r : Role_Instance) (s : Handshake_State_13_Base)
        (m m' : Post_Handshake_Message_13),
      (received_post r s m).1 = s
      ∧ ((received_post r s m).2 = Except.ok m' → m' = m)) := by
  refine ⟨?_, ?_, ?_⟩
  · intro r s m v h
    by_cases hm : r.Inbound_Message_T m.tag = true
    · have hv : v = m.payload := by
        simp [received, hm, store_msg] at h
        exact h.symm
      subst hv
      simp only [received, store_msg, if_pos hm]
      rw [read_field_write_field_same]
      rfl
    · simp [received, hm] at h
  · intro r s t v h
    simp only [sending, store_msg]
    rw [read_field_write_field_same]
    rfl
  · intro r s m m'
    by_cases hm : r.Inbound_Post_Handshake_Message_T m.tag = true
    · refine ⟨by simp [received_post, hm], ?_⟩
      intro h
      simp [received_post, hm] at h
      exact h.symm
    · refine ⟨by simp [received_post, hm], ?_⟩
      intro h
      simp [received_post, hm] at h

theorem list_set_append_two (xs : List Nat) (a b v : Nat) :
    (xs ++ [a, b]).set xs.length v = xs ++ [v, b] := by
  induction xs with
  | nil => rfl
  | cons x xs ih => simp [List.set, ih]

theorem list_set_append_snd (xs : List Nat) (a b v : Nat) :
    (xs ++ [a, b]).set (xs.length + 1) v = xs ++ [a, v] := by
  induction xs with
  | nil => rfl
  | cons x xs ih => simp [List.set, ih]

/-- C3: XOF determinism. Reading n bytes after XOF(seed, (row, col))
yields the same bytes on every invocation, whatever state the shared XOF
or cipher object was left in by other calls (st1, st2 range over
arbitrary prior states). The four conjuncts cover the modern SHAKE-128
family and the legacy AES-256-CTR family, in both the reused-object
variant (clear and re-seed per call) and the backported per-object
variant (set_position on an object whose key buffer carries the seed and
some previous position bytes — a fresh object is the case q = (0, 0)). -/
theorem C3_XOF_deterministic :
    (∀ (stream : List Nat → Nat → Nat) (st1 st2 : XOF_State)
        (seed : List Nat) (mpos : Nat × Nat) (n : Nat),
      (xof_output stream (modern_XOF st1 seed mpos) n).2
        = (xof_output stream (modern_XOF st2 seed mpos) n).2)
    ∧ (∀ (stream : List Nat → List Nat → Nat → Nat) (st1 st2 : CTR_XOF_State)
        (seed : List Nat) (mpos : Nat × Nat) (n : Nat),
      (ctr_output stream (legacy_XOF st1 seed mpos) n).2
        = (ctr_output stream (legacy_XOF st2 seed mpos) n).2)
    ∧ (∀ (stream : List Nat → Nat → Nat) (seed : List Nat)
        (c c' : Stream_Cipher_State) (q q' p : Nat × Nat) (n : Nat),
      (cipher_write_keystream stream
          (modern_backport_set_position ⟨c, seed ++ [q.1, q.2]⟩ p).m_cipher n).2
        = (cipher_write_keystream stream
            (modern_backport_set_position ⟨c', seed ++ [q'.1, q'.2]⟩ p).m_cipher n).2)
    ∧ (∀ (stream : List Nat → List Nat → Nat → Nat) (seed iv iv' : List Nat)
        (c c' : Nat) (p : Nat × Nat) (n : Nat),
      (ctr_output stream (legacy_backport_set_position ⟨seed, iv, c⟩ p) n).2
        = (ctr_output stream (legacy_backport_set_position ⟨seed, iv', c'⟩ p) n).2) := by
  refine ⟨fun _ _ _ _ _ _ => rfl, fun _ _ _ _ _ _ => rfl, ?_, fun _ _ _ _ _ _ _ _ => rfl⟩
  intro stream seed c c' q q' p n
  have hk : ∀ (q1 q2 : Nat) (c0 : Stream_Cipher_State),
      (modern_backport_set_position ⟨c0, seed ++ [q1, q2]⟩ p).m_cipher
        = ⟨seed ++ [p.1, p.2], 0⟩ := by
    intro q1 q2 c0
    simp only [modern_backport_set_position, cipher_set_key]
    have h2 : (seed ++ [q1, q2]).length - 2 = seed.length := by simp
    have h1 : (seed ++ [q1, q2]).length - 1 = seed.length + 1 := by simp
    rw [h2, h1, list_set_append_two, list_set_append_snd]
  rw [hk q.1 q.2 c, hk q'.1 q'.2 c']

/-- C7: PRF length correctness and determinism. The modern PRF builds a
fresh SHAKE-256 per call (so it is a pure function of seed, nonce and
outlen — determinism is structural) and returns outlen bytes given the
SHAKE-256 digest-length contract (output bits / 8 bytes); the legacy PRF
clears and restarts the shared AES-256-CTR object, so its outlen-byte
output is identical whatever state st1, st2 the object was left in. -/
theorem C7_PRF_length_deterministic :
    (∀ (shake256 : Nat → List Nat → List Nat)
        (_hlen : ∀ bits data, (shake256 bits data).length = bits / 8)
        (seed : List Nat) (nonce outlen : Nat),
      (modern_PRF shake256 seed nonce outlen).length = outlen)
    ∧ (∀ (stream : List Nat → List Nat → Nat → Nat) (st1 st2 : CTR_XOF_State)
        (seed : List Nat) (nonce outlen : Nat),
      (legacy_PRF stream st1 seed nonce outlen).2.length = outlen
      ∧ (legacy_PRF stream st1 seed nonce outlen).2
          = (legacy_PRF stream st2 seed nonce outlen).2) := by
  constructor
  · intro shake256 hlen seed nonce outlen
    simp only [modern_PRF]
    rw [hlen]
    omega
  · intro stream st1 st2 seed nonce outlen
    exact ⟨by simp [legacy_PRF, ctr_output], rfl⟩

/-- C7 witness: with a SHAKE-256 model honouring the digest-length
contract, PRF([1, 2], 3, 5) has exactly 5 bytes. -/
theorem C7_witness :
    (modern_PRF (fun bits _ => List.replicate (bits / 8) 0) [1, 2] 3 5).length = 5 :=
  C7_PRF_length_deterministic.1 (fun bits _ => List.replicate (bits / 8) 0)
    (fun bits data => by simp) [1, 2] 3 5

/-- C5 witness: a Client receiving ServerHello(9) finds 9 via the getter
on the addressed slot; a Client sending ClientHello(3) finds the returned
value via the getter; a Client receiving a post-handshake
NewSessionTicket leaves the store unchanged. -/
theorem C5_witness :
    Handshake_State_13_Base.get
        (read_field
          (target_field HandshakeType.ServerHello13
            (Handshake_State_13_Base.init Connection_Side.Client).m_side true)
          (received Client_Handshake_State_13
            (Handshake_State_13_Base.init Connection_Side.Client)
            ⟨HandshakeType.ServerHello13, 9⟩).1)
      = Except.ok 9
    ∧ Handshake_State_13_Base.get
        (read_field
          (target_field HandshakeType.ClientHello13
            (Handshake_State_13_Base.init Connection_Side.Client).m_side false)
          (sending Client_Handshake_State_13
            (Handshake_State_13_Base.init Connection_Side.Client)
            HandshakeType.ClientHello13 3 rfl).1)
      = Except.ok
          (sending Client_Handshake_State_13
            (Handshake_State_13_Base.init Connection_Side.Client)
            HandshakeType.ClientHello13 3 rfl).2
    ∧ (received_post Client_Handshake_State_13
          (Handshake_State_13_Base.init Connection_Side.Client)
          ⟨PostHandshakeType.NewSessionTicket13, 4⟩).1
        = Handshake_State_13_Base.init Connection_Side.Client :=
  ⟨C5_returns_stored_message.1 Client_Handshake_State_13



      (Handshake_State_13_Base.init Connection_Side.Client)
      ⟨HandshakeType.ServerHello13, 9⟩ 9 rfl,
   C5_returns_stored_message.2.1 Client_Handshake_State_13
      (Handshake_State_13_Base.init Connection_Side.Client)
      HandshakeType.ClientHello13 3 rfl,
   (C5_returns_stored_message.2.2 Client_Handshake_State_13
      (Handshake_State_13_Base.init Connection_Side.Client)
      ⟨PostHandshakeType.NewSessionTicket13, 4⟩
      ⟨PostHandshakeType.NewSessionTicket13, 4⟩).1⟩
